import Mathlib

/- Shallow embedding of the OCR orchestration scripts of this repository:
   the advanced retrying multi-worker orchestrator performAdvancedOCR and
   its host wrapper, and the two single-worker variants performOCR and
   extractTextFromImage with the code-block host wrapper.  External
   collaborators (the preprocessing library, the OCR engine workers and
   scheduler, the host runtime input) are modelled as an environment of
   outcome oracles; JavaScript strings are modelled as lists of
   characters, and thrown JavaScript errors as Except values carrying the
   error message. -/

/-- JavaScript strings are modelled as lists of characters. -/
abbrev JsStr := List Char

/-- Outcomes of the external collaborators during one call of
performAdvancedOCR: the preprocessImage call, the sequential createWorker
calls (indexed by position in the language list), the scheduler.addJob
submissions (indexed by submission number), and the per-worker terminate
calls (none means the terminate call resolves, some e means it rejects
with message e). -/
structure OcrEnv where
  preprocessResult : Except String Unit
  createResult : Nat → Except String Unit
  attemptResult : Nat → Except String JsStr
  terminateResult : Nat → Option String

/-- Observable resource and scheduler events of one performAdvancedOCR
call: how many workers were created by the createWorker loop, on how many
workers terminate was invoked in the finally block, how many jobs were
submitted through scheduler.addJob, and how many inter-attempt delay
waits were performed. -/
structure Trace where
  workersCreated : Nat
  terminateCalls : Nat
  jobsSubmitted : Nat
  delayCalls : Nat
deriving DecidableEq, Repr

/-- State of the retry loop of performAdvancedOCR at loop exit: the
variables error and text of the source, plus the job and delay counters
of the trace. -/
structure LoopOut where
  error : Option String
  text : JsStr
  jobs : Nat
  delays : Nat
deriving DecidableEq, Repr

/-- The retry loop of performAdvancedOCR, literally
while (attempts < retries) do submit a job; on success set text and clear
error and break; on failure record the error, increment attempts, and if
attempts is still below retries wait one delay and continue.  The loop is
driven here by the remaining attempt budget rem = retries - attempts
(so the while condition attempts < retries is rem > 0, and the inner
delay condition attempts < retries after the increment is rem - 1 > 0);
jobs doubles as the submission index, which equals attempts on entry of
every iteration. -/
def ocrLoop (env : OcrEnv) : Nat → Option String → JsStr → Nat → Nat → LoopOut
  | 0, err, txt, jobs, delays => ⟨err, txt, jobs, delays⟩
  | rem + 1, _err, txt, jobs, delays =>
    match env.attemptResult jobs with
    | .ok t => ⟨none, t, jobs + 1, delays⟩
    | .error e =>
      if rem = 0 then ⟨some e, txt, jobs + 1, delays⟩
      else ocrLoop env rem (some e) txt (jobs + 1) (delays + 1)

/-- The worker creation loop of performAdvancedOCR: for each language, in
order, await createWorker; push the worker and register it with the
scheduler.  Returns the number of workers created together with the error
of the first failing createWorker call, if any.  This loop runs before
the try block of the source, so its error propagates without entering
the finally cleanup. -/
def createWorkersLoop (env : OcrEnv) : List JsStr → Nat → Nat × Option String
  | [], i => (i, none)
  | _lang :: rest, i =>
    match env.createResult i with
    | .error e => (i, some e)
    | .ok _ => createWorkersLoop env rest (i + 1)

/-- Result of await Promise.all(workers.map(worker => worker.terminate())):
every terminate call is initiated, and the rejection of the earliest
failing one (if any) becomes the rejection of the whole cleanup step. -/
def firstTerminateError (env : OcrEnv) (created : Nat) : Option String :=
  (List.range created).findSome? env.terminateResult

/-- The try/finally part of performAdvancedOCR once created workers are
registered: run the retry loop; derive the primary outcome (throw the
recorded error if the loop exhausted its attempts, otherwise return
text); then unconditionally run the finally cleanup, whose rejection, if
any, replaces the primary outcome (JavaScript semantics of a throwing
finally block).  The trace records that terminate was invoked on every
created worker. -/
def runJobAndCleanup (env : OcrEnv) (created : Nat) (retries : Int) :
    Except String JsStr × Trace :=
  (match firstTerminateError env created with
   | some ce => .error ce
   | none =>
     match (ocrLoop env retries.toNat none [] 0 0).error with
     | some e => .error e
     | none => .ok (ocrLoop env retries.toNat none [] 0 0).text,
   ⟨created, created, (ocrLoop env retries.toNat none [] 0 0).jobs,
    (ocrLoop env retries.toNat none [] 0 0).delays⟩)

/-- performAdvancedOCR of the advanced script: optional preprocessing
(a preprocessing failure propagates before any worker exists), then the
sequential worker creation loop (a createWorker failure propagates with
no cleanup, because the loop precedes the try/finally in the source),
then the retry loop guarded by the finally cleanup.  The image buffer
itself is abstracted away: the outcomes of all collaborator calls are
supplied by the environment. -/
def performAdvancedOCR (env : OcrEnv) (languages : List JsStr)
    (preprocessing : Bool) (retries : Int) : Except String JsStr × Trace :=
  match (if preprocessing then env.preprocessResult else Except.ok ()) with
  | .error e => (.error e, ⟨0, 0, 0, 0⟩)
  | .ok _ =>
    match createWorkersLoop env languages 0 with
    | (created, some e) => (.error e, ⟨created, 0, 0, 0⟩)
    | (created, none) => runJobAndCleanup env created retries

/-- Per-character test for the JavaScript regular expression class \s
(whitespace), used by the wordCount statistic of the advanced host
wrapper. -/
def isJsWs (c : Char) : Bool :=
  c = ' ' || c = '\t' || c = '\n' || c = '\x0b' || c = '\x0c' || c = '\r' ||
  c.val = 0xa0 || c.val = 0x1680 || (0x2000 ≤ c.val && c.val ≤ 0x200a) ||
  c.val = 0x2028 || c.val = 0x2029 || c.val = 0x202f || c.val = 0x205f ||
  c.val = 0x3000 || c.val = 0xfeff

/-- Prepend one character to the first piece of a split result (helper
for the split models below). -/
def consHead (c : Char) : List (List Char) → List (List Char)
  | [] => [[c]]
  | s :: ss => (c :: s) :: ss

/-- Prepend a reversed accumulator of characters to the first piece of a
split result (generalisation of consHead used to reason about the
whitespace split below). -/
def consAcc (acc : List Char) : List (List Char) → List (List Char)
  | [] => [acc.reverse]
  | s :: ss => (acc.reverse ++ s) :: ss

/-- Model of the JavaScript call text.split(sep) for a one-character
separator string, as used by the lineCount statistic with separator
newline: pieces between separator occurrences, keeping empty pieces. -/
def splitOnChar (sep : Char) : List Char → List (List Char)
  | [] => [[]]
  | c :: rest =>
    if c = sep then [] :: splitOnChar sep rest
    else consHead c (splitOnChar sep rest)

/-- Model of the JavaScript call text.split with the regular expression
of one or more whitespace characters, as used by the wordCount statistic:
the string is cut at every maximal whitespace run, producing an empty
leading piece when the text starts with whitespace and an empty trailing
piece when it ends with whitespace.  The flag records whether the
previous character belonged to a whitespace run already cut at. -/
def splitWsRunsGo : Bool → List Char → List (List Char)
  | _, [] => [[]]
  | inWs, c :: rest =>
    if isJsWs c then
      if inWs then splitWsRunsGo true rest
      else [] :: splitWsRunsGo true rest
    else consHead c (splitWsRunsGo false rest)

/-- Model of text.split on the whitespace regular expression. -/
def splitWsRuns (l : List Char) : List (List Char) :=
  splitWsRunsGo false l

/-- Maximal non-empty whitespace-separated tokens of a string (the
mathematical description against which the wordCount computation of the
code is compared).  The accumulator holds the characters of the token
currently being read, in reverse. -/
def tokensGo : List Char → List Char → List (List Char)
  | acc, [] => if acc.isEmpty then [] else [acc.reverse]
  | acc, c :: rest =>
    if isJsWs c then
      if acc.isEmpty then tokensGo [] rest
      else acc.reverse :: tokensGo [] rest
    else tokensGo (c :: acc) rest

/-- Maximal non-empty whitespace-separated tokens of a string. -/
def tokens (l : List Char) : List (List Char) :=
  tokensGo [] l

/-- Statistics record of the advanced host wrapper (timestamp omitted:
wall-clock time is environment noise outside the embedding). -/
structure Stats where
  textLength : Nat
  lineCount : Nat
  wordCount : Nat
deriving DecidableEq, Repr

/-- Statistics computation of the advanced host wrapper, mirroring
extractedText.length, extractedText.split of newline .length, and
extractedText.split of the whitespace regular expression filtered to
pieces of positive length, counted. -/
def computeStats (t : JsStr) : Stats :=
  { textLength := t.length
  , lineCount := (splitOnChar '\n' t).length
  , wordCount := ((splitWsRuns t).filter (fun w => w.length > 0)).length }

/-- Environment of one advanced host wrapper call: the collaborator
outcomes for performAdvancedOCR plus the outcome of reading the binary
input from the host runtime (error means the input access itself threw,
ok none means no binary data was present, ok some b is the payload). -/
structure NodeEnv where
  ocr : OcrEnv
  inputResult : Except String (Option JsStr)

/-- Structured record returned by the advanced host wrapper (fields of
the json payload relevant to the claims; stack, timestamp, languages and
mimeType echoes omitted as environment noise). -/
structure NodeOutput where
  success : Bool
  text : Option JsStr
  error : Option String
  statistics : Option Stats
deriving DecidableEq, Repr

/-- Error message thrown by the advanced host wrapper when no binary
data is present. -/
def noBinaryMsgAdvanced : String :=
  "No binary data found in input. Connect a node that provides image data."

/-- The advanced host wrapper (module.exports of the advanced script):
read the binary input, throw if absent, call performAdvancedOCR with
languages eng, preprocessing enabled and retries 2, and wrap the outcome
as a structured success or failure record; the surrounding try/catch
turns every thrown error into a failure record, so the wrapper itself is
a total function into NodeOutput. -/
def advancedNode (env : NodeEnv) : NodeOutput :=
  match env.inputResult with
  | .error e => { success := false, text := none, error := some e, statistics := none }
  | .ok none => { success := false, text := none, error := some noBinaryMsgAdvanced, statistics := none }
  | .ok (some _buffer) =>
    match (performAdvancedOCR env.ocr ["eng".data] true 2).1 with
    | .error e => { success := false, text := none, error := some e, statistics := none }
    | .ok t => { success := true, text := some t, error := none, statistics := some (computeStats t) }

/-- Collaborator outcomes for the single-worker variants: one
createWorker call, one recognize call, one terminate call. -/
structure SimpleEnv where
  createResult : Except String Unit
  recognizeResult : Except String JsStr
  terminateResult : Option String

/-- Worker lifecycle events of one single-worker call. -/
structure SimpleTrace where
  workersCreated : Nat
  terminateCalls : Nat
deriving DecidableEq, Repr

/-- performOCR of the example script: createWorker (a failure here
propagates before the try block, with no worker created), then recognize
inside try/catch/finally; the catch logs and rethrows the same error,
and the finally awaits terminate, whose rejection, if any, replaces the
outcome. -/
def performOCR (env : SimpleEnv) : Except String JsStr × SimpleTrace :=
  match env.createResult with
  | .error e => (.error e, ⟨0, 0⟩)
  | .ok _ =>
    (match env.terminateResult with
     | some te => .error te
     | none =>
       match env.recognizeResult with
       | .ok t => .ok t
       | .error e => .error e,
     ⟨1, 1⟩)

/-- extractTextFromImage of the code-block script: createWorker, then
recognize inside try/finally with terminate in the finally block.  Same
observable semantics as performOCR, whose catch rethrows the identical
error. -/
def extractTextFromImage (env : SimpleEnv) : Except String JsStr × SimpleTrace :=
  match env.createResult with
  | .error e => (.error e, ⟨0, 0⟩)
  | .ok _ =>
    (match env.terminateResult with
     | some te => .error te
     | none =>
       match env.recognizeResult with
       | .ok t => .ok t
       | .error e => .error e,
     ⟨1, 1⟩)

/-- Environment of one code-block host wrapper call. -/
structure SimpleNodeEnv where
  simple : SimpleEnv
  inputResult : Except String (Option JsStr)

/-- Structured record returned by the code-block host wrapper. -/
structure SimpleNodeOutput where
  success : Bool
  text : Option JsStr
  error : Option String
deriving DecidableEq, Repr

/-- Error message thrown by the code-block host wrapper when no binary
data is present. -/
def noBinaryMsgSimple : String :=
  "No binary data found in input. Please connect a node that provides image data."

/-- The code-block host wrapper (module.exports of the code-block
script): read the binary input, throw if absent, call
extractTextFromImage, and wrap the outcome; the surrounding try/catch
turns every thrown error into a failure record. -/
def codeBlockNode (env : SimpleNodeEnv) : SimpleNodeOutput :=
  match env.inputResult with
  | .error e => { success := false, text := none, error := some e }
  | .ok none => { success := false, text := none, error := some noBinaryMsgSimple }
  | .ok (some _buffer) =>
    match (extractTextFromImage env.simple).1 with
    | .error e => { success := false, text := none, error := some e }
    | .ok t => { success := true, text := some t, error := none }

/-- Environment in which every collaborator call succeeds; recognition
yields the text OK. -/
def envAllOk : OcrEnv :=
  { preprocessResult := .ok ()
  , createResult := fun _ => .ok ()
  , attemptResult := fun _ => .ok "OK".data
  , terminateResult := fun _ => none }

/-- Environment in which the second createWorker call fails. -/
def envInitFail : OcrEnv :=
  { envAllOk with createResult := fun i => if i = 0 then .ok () else .error "boom" }

/-- Environment in which every recognition attempt fails. -/
def envAllFail : OcrEnv :=
  { envAllOk with attemptResult := fun _ => .error "recfail" }

/-- Environment in which recognition succeeds with text T but the
terminate call of worker 0 rejects. -/
def envTermFail : OcrEnv :=
  { envAllOk with
      attemptResult := fun _ => .ok "T".data
    , terminateResult := fun _ => some "termfail" }

/-- Environment in which the preprocessing call fails. -/
def envPreFail : OcrEnv :=
  { envAllOk with preprocessResult := .error "prefail" }

/-- Single-worker environment in which every call succeeds. -/
def envSimpleOk : SimpleEnv :=
  ⟨.ok (), .ok "t".data, none⟩

/-- Single-worker environment in which recognize fails. -/
def envSimpleRecFail : SimpleEnv :=
  ⟨.ok (), .error "rfail", none⟩

/-- Host environment for the advanced wrapper in which input is present
and recognition yields a small multi-word, multi-line text. -/
def envC10 : NodeEnv :=
  ⟨{ envAllOk with attemptResult := fun _ => .ok "ab c\nd".data },
   .ok (some "x".data)⟩

/-- Helper: when every submission fails (with the error stream es), one
pass of the retry loop with remaining budget rem at job index jobs ends
with the error of the final submission recorded, rem further jobs
submitted, and rem - 1 further delays. -/
theorem ocrLoop_allFail (env : OcrEnv) (es : Nat → String)
    (hf : ∀ k, env.attemptResult k = .error (es k)) :
    ∀ (rem : Nat) (err : Option String) (txt : JsStr) (jobs delays : Nat), 1 ≤ rem →
      ocrLoop env rem err txt jobs delays =
        ⟨some (es (jobs + rem - 1)), txt, jobs + rem, delays + rem - 1⟩ := by
  intro rem
  induction rem with
  | zero => intro _ _ _ _ h; omega
  | succ r ih =>
    intro err txt jobs delays _
    by_cases hr : r = 0
    · subst hr
      simp [ocrLoop, hf jobs]
    · have h1 : 1 ≤ r := Nat.one_le_iff_ne_zero.mpr hr
      have hrec := ih (some (es jobs)) txt (jobs + 1) (delays + 1) h1
      simp only [ocrLoop, hf jobs, if_neg hr]
      rw [hrec]
      have e1 : jobs + 1 + r - 1 = jobs + (r + 1) - 1 := by omega
      have e2 : jobs + 1 + r = jobs + (r + 1) := by omega
      have e3 : delays + 1 + r - 1 = delays + (r + 1) - 1 := by omega
      rw [e1, e2, e3]

/-- Helper: when the first submission succeeds with text t, the retry
loop returns t after exactly one submission and no delay. -/
theorem ocrLoop_firstOk (env : OcrEnv) (t : JsStr)
    (hok : env.attemptResult 0 = .ok t) :
    ∀ rem : Nat, 1 ≤ rem → ∀ (err : Option String) (txt : JsStr),
      ocrLoop env rem err txt 0 0 = ⟨none, t, 1, 0⟩ := by
  intro rem hrem err txt
  cases rem with
  | zero => omega
  | succ r => simp [ocrLoop, hok]

/-- Helper: when preprocessing (if enabled) succeeds and every
createWorker call succeeds, performAdvancedOCR reduces to the guarded
retry loop over the created workers. -/
theorem performAdvancedOCR_reach (env : OcrEnv) (langs : List JsStr)
    (pre : Bool) (retries : Int)
    (hpre : (if pre then env.preprocessResult else Except.ok ()) = Except.ok ())
    (hcr : (createWorkersLoop env langs 0).2 = none) :
    performAdvancedOCR env langs pre retries =
      runJobAndCleanup env (createWorkersLoop env langs 0).1 retries := by
  unfold performAdvancedOCR
  rw [hpre]
  rcases h : createWorkersLoop env langs 0 with ⟨created, copt⟩
  rw [h] at hcr
  simp only at hcr
  subst hcr
  rfl

/-- C4: for maxAttempts N at least 1 and a recognition job failing on
every submission, the retry loop of performAdvancedOCR submits exactly N
jobs and performs exactly N - 1 inter-attempt delays (zero for N = 1,
and never one after the final attempt). -/
theorem C4_retryCounts (env : OcrEnv) (langs : List JsStr) (pre : Bool)
    (N : Nat) (es : Nat → String) (hN : 1 ≤ N)
    (hpre : (if pre then env.preprocessResult else Except.ok ()) = Except.ok ())
    (hcr : (createWorkersLoop env langs 0).2 = none)
    (hfail : ∀ k, env.attemptResult k = .error (es k)) :
    (performAdvancedOCR env langs pre (N : Int)).2.jobsSubmitted = N ∧
      (performAdvancedOCR env langs pre (N : Int)).2.delayCalls = N - 1 := by
  rw [performAdvancedOCR_reach env langs pre (N : Int) hpre hcr]
  unfold runJobAndCleanup
  have hto : ((N : Int)).toNat = N := by omega
  rw [hto, ocrLoop_allFail env es hfail N none [] 0 0 hN]
  simp

/-- C5: when every one of the N recognition attempts fails,
performAdvancedOCR fails with exactly the error of the final attempt
(index N - 1 of the error stream), and returns no text. -/
theorem C5_lastError (env : OcrEnv) (langs : List JsStr) (pre : Bool)
    (N : Nat) (es : Nat → String) (hN : 1 ≤ N)
    (hpre : (if pre then env.preprocessResult else Except.ok ()) = Except.ok ())
    (hcr : (createWorkersLoop env langs 0).2 = none)
    (hterm : firstTerminateError env (createWorkersLoop env langs 0).1 = none)
    (hfail : ∀ k, env.attemptResult k = .error (es k)) :
    (performAdvancedOCR env langs pre (N : Int)).1 = .error (es (N - 1)) := by
  rw [performAdvancedOCR_reach env langs pre (N : Int) hpre hcr]
  unfold runJobAndCleanup
  have hto : ((N : Int)).toNat = N := by omega
  rw [hterm, hto, ocrLoop_allFail env es hfail N none [] 0 0 hN]
  simp

/-- C6: when the first recognition attempt succeeds, performAdvancedOCR
submits exactly one job, performs no delay, and returns the text of that
attempt. -/
theorem C6_firstTrySuccess (env : OcrEnv) (langs : List JsStr) (pre : Bool)
    (N : Nat) (t : JsStr) (hN : 1 ≤ N)
    (hpre : (if pre then env.preprocessResult else Except.ok ()) = Except.ok ())
    (hcr : (createWorkersLoop env langs 0).2 = none)
    (hterm : firstTerminateError env (createWorkersLoop env langs 0).1 = none)
    (hok : env.attemptResult 0 = .ok t) :
    (performAdvancedOCR env langs pre (N : Int)).1 = .ok t ∧
      (performAdvancedOCR env langs pre (N : Int)).2.jobsSubmitted = 1 ∧
      (performAdvancedOCR env langs pre (N : Int)).2.delayCalls = 0 := by
  rw [performAdvancedOCR_reach env langs pre (N : Int) hpre hcr]
  unfold runJobAndCleanup
  have hto : ((N : Int)).toNat = N := by omega
  rw [hterm, hto, ocrLoop_firstOk env t hok N hN none []]
  simp

/-- C8: when preprocessing is enabled and the preprocessing collaborator
fails, performAdvancedOCR propagates exactly that error, with no worker
created, no terminate call, no job submitted and no delay. -/
theorem C8_preprocessingError (env : OcrEnv) (langs : List JsStr)
    (retries : Int) (e : String) (hpre : env.preprocessResult = .error e) :
    performAdvancedOCR env langs true retries = (.error e, ⟨0, 0, 0, 0⟩) := by
  simp [performAdvancedOCR, hpre]

/-- Witness for C4 at a concrete input: three attempts, three jobs, two
delays. -/
theorem C4_retryCounts_witness :
    (performAdvancedOCR envAllFail ["eng".data] false (3 : Int)).2.jobsSubmitted = 3 ∧
      (performAdvancedOCR envAllFail ["eng".data] false (3 : Int)).2.delayCalls = 2 :=
  C4_retryCounts envAllFail ["eng".data] false 3 (fun _ => "recfail")
    (by omega) rfl rfl (fun _ => rfl)

/-- Witness for C5 at a concrete input: both attempts fail, the final
error surfaces. -/
theorem C5_lastError_witness :
    (performAdvancedOCR envAllFail ["eng".data] false (2 : Int)).1 = .error "recfail" :=
  C5_lastError envAllFail ["eng".data] false 2 (fun _ => "recfail")
    (by omega) rfl rfl rfl (fun _ => rfl)

/-- Witness for C6 at a concrete input: first attempt succeeds, one job,
no delay. -/
theorem C6_firstTrySuccess_witness :
    (performAdvancedOCR envAllOk ["eng".data] false (2 : Int)).1 = .ok "OK".data ∧
      (performAdvancedOCR envAllOk ["eng".data] false (2 : Int)).2.jobsSubmitted = 1 ∧
      (performAdvancedOCR envAllOk ["eng".data] false (2 : Int)).2.delayCalls = 0 :=
  C6_firstTrySuccess envAllOk ["eng".data] false 2 "OK".data
    (by omega) rfl rfl rfl rfl

/-- Witness for C8 at a concrete input: preprocessing failure propagates
before any worker or job exists. -/
theorem C8_preprocessingError_witness :
    performAdvancedOCR envPreFail ["eng".data] true 2 = (.error "prefail", ⟨0, 0, 0, 0⟩) :=
  C8_preprocessingError envPreFail ["eng".data] 2 "prefail" rfl

/-- C1 counterexample: on the worker-initialization-failure path the
claim fails on the code.  With two languages where the second
createWorker call rejects, performAdvancedOCR propagates the error while
one worker has been created and zero terminate calls have been made: one
live worker remains (the creation loop precedes the try/finally of the
source, so the cleanup never runs on this path). -/
theorem C1_workerLeak_counterexample :
    (performAdvancedOCR envInitFail ["eng".data, "fra".data] false 1).2.workersCreated = 1 ∧
      (performAdvancedOCR envInitFail ["eng".data, "fra".data] false 1).2.terminateCalls = 0 ∧
      (performAdvancedOCR envInitFail ["eng".data, "fra".data] false 1).1 = .error "boom" :=
  ⟨rfl, rfl, rfl⟩

/-- C1 amended: on every path on which worker creation completes
(success, retry exhaustion, even a failing cleanup), terminate is
invoked on every created worker; but when a later createWorker call
fails, the error propagates with zero terminate calls, so the
already-created workers are not terminated and leak. -/
theorem C1_cleanup_amended (env : OcrEnv) (langs : List JsStr) (pre : Bool)
    (retries : Int) :
    ((createWorkersLoop env langs 0).2 = none →
      (performAdvancedOCR env langs pre retries).2.terminateCalls =
        (performAdvancedOCR env langs pre retries).2.workersCreated) ∧
    (∀ e, (createWorkersLoop env langs 0).2 = some e →
      (if pre then env.preprocessResult else Except.ok ()) = Except.ok () →
      (performAdvancedOCR env langs pre retries).1 = .error e ∧
        (performAdvancedOCR env langs pre retries).2.terminateCalls = 0 ∧
        (performAdvancedOCR env langs pre retries).2.workersCreated =
          (createWorkersLoop env langs 0).1) := by
  constructor
  · intro hcr
    rcases hp : (if pre then env.preprocessResult else Except.ok ()) with e0 | u
    · simp [performAdvancedOCR, hp]
    · rw [performAdvancedOCR_reach env langs pre retries (by rw [hp]) hcr]
      rfl
  · intro e hsome hp
    unfold performAdvancedOCR
    rw [hp]
    rcases h : createWorkersLoop env langs 0 with ⟨created, copt⟩
    rw [h] at hsome
    simp only at hsome
    subst hsome
    simp

/-- Witness for the amended C1: both branches at concrete inputs. -/
theorem C1_cleanup_amended_witness :
    (performAdvancedOCR envInitFail ["eng".data, "fra".data] false 1).1 = .error "boom" ∧
      (performAdvancedOCR envInitFail ["eng".data, "fra".data] false 1).2.terminateCalls = 0 ∧
      (performAdvancedOCR envAllOk ["eng".data] false 1).2.terminateCalls =
        (performAdvancedOCR envAllOk ["eng".data] false 1).2.workersCreated := by
  refine ⟨?_, ?_, ?_⟩
  · exact ((C1_cleanup_amended envInitFail ["eng".data, "fra".data] false 1).2 "boom" rfl rfl).1
  · exact ((C1_cleanup_amended envInitFail ["eng".data, "fra".data] false 1).2 "boom" rfl rfl).2.1
  · exact (C1_cleanup_amended envAllOk ["eng".data] false 1).1 rfl

/-- C2 counterexample: for maxAttempts 0 the code does not fail with a
Configuration Error; the retry loop is skipped, no job is submitted, and
performAdvancedOCR silently resolves with the initial empty text. -/
theorem C2_zeroRetries_counterexample :
    (performAdvancedOCR envAllOk ["eng".data] false 0).1 = Except.ok ([] : JsStr) ∧
      (performAdvancedOCR envAllOk ["eng".data] false 0).2.jobsSubmitted = 0 :=
  ⟨rfl, rfl⟩

/-- C2 amended: for every retry bound at most 0, performAdvancedOCR
never submits a job and does not loop, but instead of failing with a
Configuration Error it silently succeeds with the empty text (when the
surrounding steps succeed). -/
theorem C2_zeroRetries_amended (env : OcrEnv) (langs : List JsStr) (pre : Bool)
    (retries : Int) (hr : retries ≤ 0) :
    (performAdvancedOCR env langs pre retries).2.jobsSubmitted = 0 ∧
    ((if pre then env.preprocessResult else Except.ok ()) = Except.ok () →
      (createWorkersLoop env langs 0).2 = none →
      firstTerminateError env (createWorkersLoop env langs 0).1 = none →
      (performAdvancedOCR env langs pre retries).1 = Except.ok ([] : JsStr)) := by
  have h0 : retries.toNat = 0 := by omega
  constructor
  · rcases hp : (if pre then env.preprocessResult else Except.ok ()) with e0 | u
    · simp [performAdvancedOCR, hp]
    · rcases h : createWorkersLoop env langs 0 with ⟨created, copt⟩
      cases copt with
      | some e =>
        unfold performAdvancedOCR
        rw [hp, h]
      | none =>
        rw [performAdvancedOCR_reach env langs pre retries (by rw [hp]) (by rw [h])]
        unfold runJobAndCleanup
        rw [h0]
        rfl
  · intro hp hcr hterm
    rw [performAdvancedOCR_reach env langs pre retries hp hcr]
    unfold runJobAndCleanup
    rw [hterm, h0]
    rfl

/-- Witness for the amended C2 at a concrete input. -/
theorem C2_zeroRetries_amended_witness :
    (performAdvancedOCR envAllOk ["eng".data] false 0).2.jobsSubmitted = 0 ∧
      (performAdvancedOCR envAllOk ["eng".data] false 0).1 = Except.ok ([] : JsStr) := by
  refine ⟨(C2_zeroRetries_amended envAllOk ["eng".data] false 0 (by omega)).1, ?_⟩
  exact (C2_zeroRetries_amended envAllOk ["eng".data] false 0 (by omega)).2 rfl rfl rfl

/-- C3 counterexample: the recognition attempt succeeds with text T, yet
because the terminate call of the single worker rejects, the whole call
rejects with the termination error: the primary result is not returned
unchanged, and the termination failure is promoted to the fatal error of
the request. -/
theorem C3_terminateFailure_counterexample :
    envTermFail.attemptResult 0 = .ok "T".data ∧
      (performAdvancedOCR envTermFail ["eng".data] false 1).1 = .error "termfail" :=
  ⟨rfl, rfl⟩

/-- C3 amended: when a terminate call fails during cleanup, terminate is
still invoked on every created worker (the failure does not prevent the
other terminations from being started), but the failure is not merely
logged: the earliest termination rejection replaces the primary result
or error of performAdvancedOCR. -/
theorem C3_terminateFailure_amended (env : OcrEnv) (langs : List JsStr)
    (pre : Bool) (retries : Int) (ce : String)
    (hpre : (if pre then env.preprocessResult else Except.ok ()) = Except.ok ())
    (hcr : (createWorkersLoop env langs 0).2 = none)
    (hterm : firstTerminateError env (createWorkersLoop env langs 0).1 = some ce) :
    (performAdvancedOCR env langs pre retries).1 = .error ce ∧
      (performAdvancedOCR env langs pre retries).2.terminateCalls =
        (performAdvancedOCR env langs pre retries).2.workersCreated := by
  rw [performAdvancedOCR_reach env langs pre retries hpre hcr]
  unfold runJobAndCleanup
  rw [hterm]
  exact ⟨rfl, rfl⟩

/-- Witness for the amended C3 at a concrete input. -/
theorem C3_terminateFailure_amended_witness :
    (performAdvancedOCR envTermFail ["eng".data] false 1).1 = .error "termfail" ∧
      (performAdvancedOCR envTermFail ["eng".data] false 1).2.terminateCalls =
        (performAdvancedOCR envTermFail ["eng".data] false 1).2.workersCreated :=
  C3_terminateFailure_amended envTermFail ["eng".data] false 1 "termfail" rfl rfl rfl

/-- C7: for every environment (hence every input and every collaborator
outcome), the two host-facing wrappers return a structured record and
never throw: success true comes with extracted text and no error,
success false comes with an error message and no text. -/
theorem C7_wrapperShape (env : NodeEnv) (senv : SimpleNodeEnv) :
    ((advancedNode env).success = true ∧ ((advancedNode env).text).isSome = true ∧
        (advancedNode env).error = none ∨
      (advancedNode env).success = false ∧ ((advancedNode env).error).isSome = true ∧
        (advancedNode env).text = none) ∧
    ((codeBlockNode senv).success = true ∧ ((codeBlockNode senv).text).isSome = true ∧
        (codeBlockNode senv).error = none ∨
      (codeBlockNode senv).success = false ∧ ((codeBlockNode senv).error).isSome = true ∧
        (codeBlockNode senv).text = none) := by
  constructor
  · rcases h : env.inputResult with e | ob
    · right; simp [advancedNode, h]
    · rcases ob with _ | b
      · right; simp [advancedNode, h]
      · rcases h2 : (performAdvancedOCR env.ocr ["eng".data] true 2).1 with e | t
        · right; simp [advancedNode, h, h2]
        · left; simp [advancedNode, h, h2]
  · rcases h : senv.inputResult with e | ob
    · right; simp [codeBlockNode, h]
    · rcases ob with _ | b
      · right; simp [codeBlockNode, h]
      · rcases h2 : (extractTextFromImage senv.simple).1 with e | t
        · right; simp [codeBlockNode, h, h2]
        · left; simp [codeBlockNode, h, h2]

/-- C9: in the single-worker variants, once the worker is created, both
performOCR and extractTextFromImage invoke terminate on it on every exit
path; with a resolving terminate, a successful recognize returns its
text and a failing recognize rethrows its original error. -/
theorem C9_singleWorkerCleanup (env : SimpleEnv)
    (h : env.createResult = Except.ok ()) :
    (performOCR env).2 = ⟨1, 1⟩ ∧ (extractTextFromImage env).2 = ⟨1, 1⟩ ∧
    (∀ t, env.recognizeResult = .ok t → env.terminateResult = none →
      (performOCR env).1 = .ok t ∧ (extractTextFromImage env).1 = .ok t) ∧
    (∀ e, env.recognizeResult = .error e → env.terminateResult = none →
      (performOCR env).1 = .error e ∧ (extractTextFromImage env).1 = .error e) := by
  refine ⟨?_, ?_, ?_, ?_⟩
  · simp [performOCR, h]
  · simp [extractTextFromImage, h]
  · intro t hrec hterm
    constructor <;> simp [performOCR, extractTextFromImage, h, hrec, hterm]
  · intro e hrec hterm
    constructor <;> simp [performOCR, extractTextFromImage, h, hrec, hterm]

/-- Witness for C9 at concrete inputs: success path and recognize-failure
path of both variants. -/
theorem C9_singleWorkerCleanup_witness :
    (performOCR envSimpleOk).2 = ⟨1, 1⟩ ∧ (extractTextFromImage envSimpleOk).2 = ⟨1, 1⟩ ∧
      (performOCR envSimpleOk).1 = .ok "t".data ∧
      (extractTextFromImage envSimpleOk).1 = .ok "t".data ∧
      (performOCR envSimpleRecFail).1 = .error "rfail" ∧
      (extractTextFromImage envSimpleRecFail).1 = .error "rfail" := by
  obtain ⟨h1, h2, h3, _⟩ := C9_singleWorkerCleanup envSimpleOk rfl
  obtain ⟨_, _, _, g4⟩ := C9_singleWorkerCleanup envSimpleRecFail rfl
  obtain ⟨a, b⟩ := h3 "t".data rfl rfl
  obtain ⟨c, d⟩ := g4 "rfail" rfl rfl
  exact ⟨h1, h2, a, b, c, d⟩

/-- Helper: consHead never yields the empty split. -/
theorem consHead_ne_nil (c : Char) (X : List (List Char)) : consHead c X ≠ [] := by
  cases X <;> simp [consHead]

/-- Helper: consHead is consAcc with a singleton accumulator. -/
theorem consHead_eq_consAcc (c : Char) (X : List (List Char)) :
    consHead c X = consAcc [c] X := by
  cases X <;> simp [consHead, consAcc]

/-- Helper: pushing one character through consHead into consAcc. -/
theorem consAcc_consHead (acc : List Char) (c : Char) (X : List (List Char)) :
    consAcc acc (consHead c X) = consAcc (c :: acc) X := by
  cases X <;> simp [consHead, consAcc]

/-- Helper: consAcc with an empty accumulator is the identity on
non-empty split results. -/
theorem consAcc_nil (X : List (List Char)) (h : X ≠ []) : consAcc [] X = X := by
  cases X with
  | nil => exact absurd rfl h
  | cons s ss => simp [consAcc]

/-- Helper: the whitespace split never yields the empty list of pieces. -/
theorem splitWsRunsGo_ne_nil (l : List Char) : ∀ b : Bool, splitWsRunsGo b l ≠ [] := by
  induction l with
  | nil => intro b; simp [splitWsRunsGo]
  | cons c rest ih =>
    intro b
    by_cases hc : isJsWs c
    · cases b with
      | false => simp [splitWsRunsGo, hc]
      | true => simpa [splitWsRunsGo, hc] using ih true
    · simpa [splitWsRunsGo, hc] using consHead_ne_nil c (splitWsRunsGo false rest)

/-- Key lemma for the wordCount statistic: filtering the pieces of the
whitespace split down to the non-empty ones yields exactly the maximal
non-empty whitespace-separated tokens, for both states of the splitter
(just after a cut, and with a partial token in the accumulator). -/
theorem split_tokens_main (l : List Char) :
    (splitWsRunsGo true l).filter (fun w => w.length > 0) = tokensGo [] l ∧
    ∀ acc : List Char,
      (consAcc acc (splitWsRunsGo false l)).filter (fun w => w.length > 0) = tokensGo acc l := by
  induction l with
  | nil =>
    constructor
    · simp [splitWsRunsGo, tokensGo]
    · intro acc
      cases acc <;> simp [splitWsRunsGo, consAcc, tokensGo]
  | cons c rest ih =>
    obtain ⟨ih1, ih2⟩ := ih
    by_cases hc : isJsWs c
    · constructor
      · simpa [splitWsRunsGo, tokensGo, hc] using ih1
      · intro acc
        cases acc with
        | nil => simpa [splitWsRunsGo, consAcc, tokensGo, hc] using ih1
        | cons a as =>
          simp [splitWsRunsGo, consAcc, tokensGo, hc]
          exact ih1
    · constructor
      · rw [show splitWsRunsGo true (c :: rest) = consHead c (splitWsRunsGo false rest) by
              simp [splitWsRunsGo, hc]]
        rw [consHead_eq_consAcc]
        rw [show tokensGo [] (c :: rest) = tokensGo [c] rest by simp [tokensGo, hc]]
        exact ih2 [c]
      · intro acc
        rw [show splitWsRunsGo false (c :: rest) = consHead c (splitWsRunsGo false rest) by
              simp [splitWsRunsGo, hc]]
        rw [consAcc_consHead]
        rw [show tokensGo acc (c :: rest) = tokensGo (c :: acc) rest by simp [tokensGo, hc]]
        exact ih2 (c :: acc)

/-- The wordCount computation of the code (split on whitespace runs,
keep the non-empty pieces) yields exactly the maximal non-empty
whitespace-separated tokens. -/
theorem splitWsRuns_filter_eq_tokens (l : List Char) :
    (splitWsRuns l).filter (fun w => w.length > 0) = tokens l := by
  unfold splitWsRuns tokens
  have h := (split_tokens_main l).2 []
  rw [consAcc_nil _ (splitWsRunsGo_ne_nil l false)] at h
  exact h

/-- Helper: the one-character split never yields the empty list of
pieces. -/
theorem splitOnChar_ne_nil (sep : Char) (l : List Char) : splitOnChar sep l ≠ [] := by
  cases l with
  | nil => simp [splitOnChar]
  | cons c rest =>
    by_cases h : c = sep
    · simp [splitOnChar, h]
    · simpa [splitOnChar, h] using consHead_ne_nil c (splitOnChar sep rest)

/-- Helper: consHead preserves the number of pieces of a non-empty
split. -/
theorem length_consHead (c : Char) (X : List (List Char)) (h : X ≠ []) :
    (consHead c X).length = X.length := by
  cases X with
  | nil => exact absurd rfl h
  | cons s ss => simp [consHead]

/-- The lineCount computation of the code (split on the newline
character, count the pieces) yields one more than the number of newline
characters. -/
theorem splitOnChar_length (sep : Char) (l : List Char) :
    (splitOnChar sep l).length = l.count sep + 1 := by
  induction l with
  | nil => simp [splitOnChar]
  | cons c rest ih =>
    by_cases h : c = sep
    · subst h
      simp [splitOnChar, ih, List.count_cons_self]
    · rw [show splitOnChar sep (c :: rest) = consHead c (splitOnChar sep rest) by
            simp [splitOnChar, h]]
      rw [length_consHead c _ (splitOnChar_ne_nil sep rest), ih,
        List.count_cons_of_ne (by simpa using Ne.symm h)]

/-- C10: on every success result of the advanced host wrapper, the
returned statistics are exact functions of the returned text: textLength
is the number of characters, lineCount is one plus the number of newline
characters, and wordCount is the number of maximal non-empty
whitespace-separated tokens. -/
theorem C10_statistics (env : NodeEnv) (t : JsStr) (s : Stats)
    (ht : (advancedNode env).text = some t)
    (hs : (advancedNode env).statistics = some s) :
    s.textLength = t.length ∧ s.lineCount = t.count '\n' + 1 ∧
      s.wordCount = (tokens t).length := by
  unfold advancedNode at ht hs
  rcases h : env.inputResult with e | ob
  · rw [h] at ht; simp at ht
  · rw [h] at ht hs
    rcases ob with _ | b
    · simp at ht
    · rcases h2 : (performAdvancedOCR env.ocr ["eng".data] true 2).1 with e | t0
      · rw [h2] at ht; simp at ht
      · rw [h2] at ht hs
        simp only [Option.some.injEq] at ht hs
        subst ht
        subst hs
        refine ⟨rfl, ?_, ?_⟩
        · simp only [computeStats]
          exact splitOnChar_length '\n' _
        · simp only [computeStats]
          rw [splitWsRuns_filter_eq_tokens]

/-- Witness for C10 at a concrete input: the text has six characters,
one newline (two lines) and three tokens. -/
theorem C10_statistics_witness :
    (Stats.mk 6 2 3).textLength = "ab c\nd".data.length ∧
      (Stats.mk 6 2 3).lineCount = "ab c\nd".data.count '\n' + 1 ∧
      (Stats.mk 6 2 3).wordCount = (tokens "ab c\nd".data).length :=
  C10_statistics envC10 "ab c\nd".data ⟨6, 2, 3⟩ rfl rfl
